import Mathlib

/-!
Shallow embedding of the authentication-session core of the
PretiumInvestment2 frontend: the axios gateway (request and response
interceptors over localStorage), the login submission handler, and the
two-phase password-reset page, translated from
src/frontend/src/Services/api.js and src/frontend/src/pages/ForgotPassword.js
(the login page is the second part of the pages file).
-/

namespace Pretium

/-- JavaScript truthiness of a possibly absent string value:
`undefined`/`null` and the empty string are falsy, every other string truthy. -/
def jsTruthy : Option String → Bool
  | none => false
  | some s => s ≠ ""

/-- The JavaScript expression `a || b` for a possibly absent string `a`
and a string default `b`. -/
def jsOr (a : Option String) (b : String) : String :=
  if jsTruthy a then a.getD "" else b

/-- The browser localStorage as far as this code touches it: the two named
entries `access_token` and `refresh_token`, each present or absent. -/
structure LocalStorage where
  access_token : Option String
  refresh_token : Option String
deriving DecidableEq, Repr

/-- `localStorage.getItem(k)`. -/
def LocalStorage.getItem (s : LocalStorage) (k : String) : Option String :=
  if k = "access_token" then s.access_token
  else if k = "refresh_token" then s.refresh_token
  else none

/-- `localStorage.setItem(k, v)`. -/
def LocalStorage.setItem (s : LocalStorage) (k v : String) : LocalStorage :=
  if k = "access_token" then { s with access_token := some v }
  else if k = "refresh_token" then { s with refresh_token := some v }
  else s

/-- `localStorage.removeItem(k)`. -/
def LocalStorage.removeItem (s : LocalStorage) (k : String) : LocalStorage :=
  if k = "access_token" then { s with access_token := none }
  else if k = "refresh_token" then { s with refresh_token := none }
  else s

/-- The `data` object of an axios error response, as consumed by the pages:
only the optional `error` field is read. -/
structure ErrorData where
  error : Option String
deriving DecidableEq, Repr

/-- An axios error response: an HTTP status and an optional body. -/
structure ErrorResponse where
  status : Nat
  data : Option ErrorData
deriving DecidableEq, Repr

/-- An axios error object; `response` is absent on a network fault. -/
structure AxiosError where
  response : Option ErrorResponse
deriving DecidableEq, Repr

/-- The optional-chaining read `err.response?.data?.error`. -/
def AxiosError.errorMessage (e : AxiosError) : Option String :=
  e.response.bind (fun r => r.data.bind (fun d => d.error))

/-- The test `error.response?.status === 401` of the response interceptor. -/
def is401 (e : AxiosError) : Bool :=
  match e.response with
  | some r => r.status == 401
  | none => false

/-- The slice of an axios request config that the request interceptor
touches: the Authorization header, present or absent. -/
structure RequestConfig where
  authorization : Option String
deriving DecidableEq, Repr

/-- `API.interceptors.request` of api.js: read `access_token` from
localStorage; if truthy, set `config.headers.Authorization` to
`Bearer token`; return the config. -/
def requestInterceptor (store : LocalStorage) (config : RequestConfig) :
    RequestConfig :=
  let token := store.getItem "access_token"
  if jsTruthy token then
    { config with authorization := some ("Bearer " ++ token.getD "") }
  else config

/-- `API.interceptors.response` of api.js, error branch: on status 401
remove both token entries from localStorage, then `Promise.reject(error)`.
The result pairs the storage after the side effect with the rejected error. -/
def responseErrorInterceptor (store : LocalStorage) (e : AxiosError) :
    LocalStorage × AxiosError :=
  if is401 e then
    (((store.removeItem "access_token").removeItem "refresh_token"), e)
  else (store, e)

/-- The login form fields of LoginPage: username, password, 2FA token. -/
structure LoginForm where
  username : String
  password : String
  token : String
deriving DecidableEq, Repr

/-- The body posted to `login/`. -/
structure LoginPayload where
  username : String
  password : String
  token : Option String
deriving DecidableEq, Repr

/-- Payload construction in `handleLogin` of LoginPage: trimmed username,
password as typed, and `payload.token = token.trim()` only when
`token.trim()` is truthy. -/
def buildLoginPayload (f : LoginForm) : LoginPayload :=
  let base : LoginPayload :=
    { username := f.username.trim, password := f.password, token := none }
  if f.token.trim ≠ "" then { base with token := some f.token.trim } else base

/-- The success payload of `login/` as consumed: `data.access` and the
optional `data.refresh`. -/
structure LoginSuccessData where
  access : String
  refresh : Option String
deriving DecidableEq, Repr

/-- The success branch of `handleLogin`: `setItem("access_token", data.access)`
then, only if `data.refresh` is truthy, `setItem("refresh_token", data.refresh)`. -/
def applyLoginSuccess (store : LocalStorage) (d : LoginSuccessData) :
    LocalStorage :=
  let s1 := store.setItem "access_token" d.access
  if jsTruthy d.refresh then s1.setItem "refresh_token" (d.refresh.getD "")
  else s1

/-- Outcome of the awaited `API.post("login/", payload)`. -/
inductive LoginOutcome where
  | success (d : LoginSuccessData)
  | failure (e : AxiosError)
deriving DecidableEq, Repr

/-- Storage after a whole login attempt: on success the `handleLogin`
success branch runs; on failure the response interceptor has already run on
the error and the page catch block only sets the error message, touching no
storage. -/
def loginStoreAfter (store : LocalStorage) (o : LoginOutcome) : LocalStorage :=
  match o with
  | .success d => applyLoginSuccess store d
  | .failure e => (responseErrorInterceptor store e).1

/-- The error message displayed by `handleLogin` on failure. -/
def loginErrorShown (e : AxiosError) : String :=
  jsOr e.errorMessage "Login failed. Check your credentials and 2FA token."

/-- The `uid` and `token` query parameters of the entry URL of the reset
view, each absent or a string (possibly empty). -/
structure ResetQuery where
  uid : Option String
  token : Option String
deriving DecidableEq, Repr

/-- `const initUid = query.get("uid") || ""`. -/
def initUid (q : ResetQuery) : String := jsOr q.uid ""

/-- `const initToken = query.get("token") || ""`. -/
def initToken (q : ResetQuery) : String := jsOr q.token ""

/-- `const showConfirm = Boolean(initUid && initToken)`. -/
def showConfirm (q : ResetQuery) : Bool :=
  initUid q ≠ "" && initToken q ≠ ""

/-- Which of the two forms the ForgotPassword component renders. -/
structure RenderedForms where
  requestForm : Bool
  confirmForm : Bool
deriving DecidableEq, Repr

/-- The render of ForgotPassword: the request form is inside
`!showConfirm && (...)`; the Set-new-password form is rendered
unconditionally. -/
def renderForgotPassword (q : ResetQuery) : RenderedForms :=
  { requestForm := !(showConfirm q), confirmForm := true }

/-- The success payload of `password-reset-request/` as consumed:
optional `message`, `uid`, `token`. -/
structure ResetRequestData where
  message : Option String
  uid : Option String
  token : Option String
deriving DecidableEq, Repr

/-- The component state touched by `submitRequest` (Phase A), together with
the `uid`/`token` fields it may pre-populate for Phase B. -/
structure RequestPhaseState where
  email : String
  uid : String
  token : String
  requestStatus : String
  requestError : String
  isRequesting : Bool
deriving DecidableEq, Repr

/-- Outcome of the awaited `API.post("password-reset-request/", ...)`. -/
inductive RequestOutcome where
  | success (d : ResetRequestData)
  | failure (e : AxiosError)
deriving DecidableEq, Repr

/-- Observable result of a Phase A submission: the email string posted and
the state after the handler returns. -/
structure RequestResult where
  payloadEmail : String
  state : RequestPhaseState
deriving DecidableEq, Repr

/-- `submitRequest` of ForgotPassword: set pending, clear messages, post the
trimmed email; on success show `data?.message || generic` and copy truthy
`uid`/`token` fields into state; on failure show
`err.response?.data?.error || generic`; finally clear pending. -/
def submitRequest (s : RequestPhaseState) (o : RequestOutcome) :
    RequestResult :=
  let s0 := { s with isRequesting := true, requestError := "", requestStatus := "" }
  let sent := s0.email.trim
  match o with
  | .success d =>
      let msg := jsOr d.message
        "If an account exists for that email, a reset link will be sent."
      let s1 := { s0 with requestStatus := msg }
      let s2 := if jsTruthy d.uid then { s1 with uid := d.uid.getD "" } else s1
      let s3 := if jsTruthy d.token then { s2 with token := d.token.getD "" } else s2
      { payloadEmail := sent, state := { s3 with isRequesting := false } }
  | .failure e =>
      { payloadEmail := sent,
        state := { s0 with
          requestError := jsOr e.errorMessage "Unable to submit request.",
          isRequesting := false } }

/-- The component state touched by `submitConfirm` (Phase B). -/
structure ConfirmPhaseState where
  uid : String
  token : String
  password : String
  confirm : String
  confirmStatus : String
  confirmError : String
  isConfirming : Bool
deriving DecidableEq, Repr

/-- The body posted to `password-reset-confirm/`. -/
structure ConfirmPayload where
  uid : String
  token : String
  new_password : String
deriving DecidableEq, Repr

/-- Outcome of the awaited `API.post("password-reset-confirm/", ...)`. -/
inductive ConfirmOutcome where
  | success
  | failure (e : AxiosError)
deriving DecidableEq, Repr

/-- Observable result of a Phase B submission: the body posted, if any, the
state after the handler returns, and the navigation scheduled by
`setTimeout(() => navigate(target), delay)`, if any. -/
structure ConfirmResult where
  networkCall : Option ConfirmPayload
  state : ConfirmPhaseState
  scheduledNav : Option (String × Nat)
deriving DecidableEq, Repr

/-- `submitConfirm` of ForgotPassword: set pending, clear messages; on
password mismatch set the error and stop before any network call; otherwise
post trimmed uid/token with the new password; on success show the status
message and schedule `navigate("/")` after 1200 ms; on failure show
`err.response?.data?.error || generic`; finally clear pending. -/
def submitConfirm (s : ConfirmPhaseState) (o : ConfirmOutcome) :
    ConfirmResult :=
  let s0 := { s with isConfirming := true, confirmError := "", confirmStatus := "" }
  if s0.password ≠ s0.confirm then
    { networkCall := none,
      state := { s0 with
        confirmError := "Passwords do not match.", isConfirming := false },
      scheduledNav := none }
  else
    let payload : ConfirmPayload :=
      { uid := s0.uid.trim, token := s0.token.trim, new_password := s0.password }
    match o with
    | .success =>
        { networkCall := some payload,
          state := { s0 with
            confirmStatus := "Password updated. You can now sign in.",
            isConfirming := false },
          scheduledNav := some ("/", 1200) }
    | .failure e =>
        { networkCall := some payload,
          state := { s0 with
            confirmError := jsOr e.errorMessage "Unable to reset password.",
            isConfirming := false },
          scheduledNav := none }

/-! ## Helper lemmas -/

/-- The value of `a || empty-string-default` is non-empty exactly when `a`
is truthy. -/
theorem jsOr_empty_ne (a : Option String) :
    ((jsOr a "") ≠ "") ↔ jsTruthy a = true := by
  cases a with
  | none => simp [jsOr, jsTruthy]
  | some s => by_cases h : s = "" <;> simp [jsOr, jsTruthy, h]

/-! ## Claims -/

/-- Claim C1: any backend response whose status is 401 makes the response
interceptor remove both the access and refresh token entries from the
session store and then reject with the very same error object, with no
retry or refresh exchange. -/
theorem c1_response401_clears_and_propagates (store : LocalStorage)
    (e : AxiosError) (h : is401 e = true) :
    ((responseErrorInterceptor store e).1).getItem "access_token" = none ∧
    ((responseErrorInterceptor store e).1).getItem "refresh_token" = none ∧
    (responseErrorInterceptor store e).2 = e := by
  simp [responseErrorInterceptor, h, LocalStorage.removeItem,
    LocalStorage.getItem]

/-- Claim C1 at a concrete 401 error and a populated store. -/
theorem c1_response401_witness :
    is401 ⟨some ⟨401, none⟩⟩ = true ∧
    (((responseErrorInterceptor ⟨some "a", some "r"⟩
        ⟨some ⟨401, none⟩⟩).1).getItem "access_token" = none ∧
     ((responseErrorInterceptor ⟨some "a", some "r"⟩
        ⟨some ⟨401, none⟩⟩).1).getItem "refresh_token" = none ∧
     (responseErrorInterceptor ⟨some "a", some "r"⟩
        ⟨some ⟨401, none⟩⟩).2 = ⟨some ⟨401, none⟩⟩) :=
  ⟨by decide, c1_response401_clears_and_propagates ⟨some "a", some "r"⟩
    ⟨some ⟨401, none⟩⟩ (by decide)⟩

/-- Claim C2 is false as stated: a failed login attempt whose response
carries status 401 does change the session store, clearing a credential
pair stored before the attempt. -/
theorem c2_counterexample :
    loginStoreAfter ⟨some "A", some "R"⟩ (.failure ⟨some ⟨401, none⟩⟩) ≠
      (⟨some "A", some "R"⟩ : LocalStorage) := by decide

/-- Claim C2 (amended): the login handler itself never writes the store on
failure; the store is unchanged after every failed attempt whose response
is not a 401, and on a 401 failure the gateway response interceptor removes
both token entries. -/
theorem c2_login_failure_store (store : LocalStorage) (e : AxiosError) :
    (is401 e = false → loginStoreAfter store (.failure e) = store) ∧
    (is401 e = true →
      (loginStoreAfter store (.failure e)).access_token = none ∧
      (loginStoreAfter store (.failure e)).refresh_token = none) := by
  constructor
  · intro h
    simp [loginStoreAfter, responseErrorInterceptor, h]
  · intro h
    simp [loginStoreAfter, responseErrorInterceptor, h,
      LocalStorage.removeItem]

/-- Claim C2 (amended) at a concrete non-401 failure and populated store. -/
theorem c2_login_failure_witness :
    is401 ⟨some ⟨403, none⟩⟩ = false ∧
    loginStoreAfter ⟨some "A", some "R"⟩ (.failure ⟨some ⟨403, none⟩⟩) =
      (⟨some "A", some "R"⟩ : LocalStorage) :=
  ⟨by decide, (c2_login_failure_store ⟨some "A", some "R"⟩
    ⟨some ⟨403, none⟩⟩).1 (by decide)⟩

/-- Claim C3 is false as stated: with the access token entry present in the
store but holding the empty string, the dispatched request carries no
Authorization header. -/
theorem c3_counterexample :
    (⟨some "", none⟩ : LocalStorage).getItem "access_token" ≠ none ∧
    (requestInterceptor ⟨some "", none⟩ ⟨none⟩).authorization = none := by
  decide

/-- Claim C3 (amended): a request carries the header Authorization Bearer t
exactly when the stored access token t is present and non-empty; when the
stored token is absent or empty the config is left as it came, so no
Authorization header is attached. -/
theorem c3_request_auth_header (store : LocalStorage)
    (config : RequestConfig) :
    (∀ t : String, store.getItem "access_token" = some t → t ≠ "" →
      (requestInterceptor store config).authorization =
        some ("Bearer " ++ t)) ∧
    (jsTruthy (store.getItem "access_token") = false →
      requestInterceptor store config = config) := by
  constructor
  · intro t ht hne
    simp [requestInterceptor, ht, jsTruthy, hne]
  · intro h
    simp [requestInterceptor, h]

/-- Claim C3 (amended) at a concrete non-empty stored token. -/
theorem c3_request_auth_witness :
    (⟨some "tok", none⟩ : LocalStorage).getItem "access_token" =
      some "tok" ∧ ("tok" : String) ≠ "" ∧
    (requestInterceptor ⟨some "tok", none⟩ ⟨none⟩).authorization =
      some ("Bearer " ++ "tok") :=
  ⟨by decide, by decide, (c3_request_auth_header ⟨some "tok", none⟩
    ⟨none⟩).1 "tok" (by decide) (by decide)⟩

/-- Claim C4 is false as stated: after a login success payload carrying
only an access token, a refresh token stored before the attempt is still
reported, not absent. -/
theorem c4_counterexample :
    applyLoginSuccess ⟨none, some "old"⟩ ⟨"a", none⟩ =
      (⟨some "a", some "old"⟩ : LocalStorage) := by decide

/-- Claim C4 (amended): after a login success payload with only an access
token, the store reports that access token, and the refresh token entry is
left exactly as it was before the attempt rather than being made absent. -/
theorem c4_access_only_login (store : LocalStorage) (d : LoginSuccessData)
    (h : d.refresh = none) :
    (applyLoginSuccess store d).access_token = some d.access ∧
    (applyLoginSuccess store d).refresh_token = store.refresh_token := by
  simp [applyLoginSuccess, h, jsTruthy, LocalStorage.setItem]

/-- Claim C4 (amended) at a concrete access-only payload over a store with
a stale refresh token. -/
theorem c4_access_only_witness :
    (⟨"a", none⟩ : LoginSuccessData).refresh = none ∧
    ((applyLoginSuccess ⟨none, some "old"⟩ ⟨"a", none⟩).access_token =
        some "a" ∧
     (applyLoginSuccess ⟨none, some "old"⟩ ⟨"a", none⟩).refresh_token =
        (⟨none, some "old"⟩ : LocalStorage).refresh_token) :=
  ⟨rfl, c4_access_only_login ⟨none, some "old"⟩ ⟨"a", none⟩ rfl⟩

/-- Claim C5 is false as stated: with uid and token both absent from the
entry URL the reset view renders the request form together with the
confirmation form, not only the request form. -/
theorem c5_counterexample :
    renderForgotPassword ⟨none, none⟩ = ⟨true, true⟩ := by decide

/-- Claim C5 (amended): with both uid and token query parameters present
and non-empty only the confirmation form is shown; with either absent or
empty the request form is shown but the confirmation form is rendered as
well, since it is rendered unconditionally. -/
theorem c5_phase_selection (q : ResetQuery) :
    (jsTruthy q.uid = true → jsTruthy q.token = true →
      renderForgotPassword q = ⟨false, true⟩) ∧
    (jsTruthy q.uid = false ∨ jsTruthy q.token = false →
      renderForgotPassword q = ⟨true, true⟩) := by
  constructor
  · intro hu ht
    have hu' : initUid q ≠ "" := (jsOr_empty_ne q.uid).mpr hu
    have ht' : initToken q ≠ "" := (jsOr_empty_ne q.token).mpr ht
    simp [renderForgotPassword, showConfirm, hu', ht']
  · intro h
    have hs : showConfirm q = false := by
      rcases h with h | h
      · have hu' : ¬ (initUid q ≠ "") := by
          simp only [initUid]
          rw [jsOr_empty_ne q.uid]
          simp [h]
        simp [showConfirm, hu']
      · have ht' : ¬ (initToken q ≠ "") := by
          simp only [initToken]
          rw [jsOr_empty_ne q.token]
          simp [h]
        simp [showConfirm, ht']
    simp [renderForgotPassword, hs]

/-- Claim C5 (amended) at a concrete URL carrying both parameters. -/
theorem c5_phase_selection_witness :
    jsTruthy (some "u") = true ∧ jsTruthy (some "t") = true ∧
    renderForgotPassword ⟨some "u", some "t"⟩ = ⟨false, true⟩ :=
  ⟨by decide, by decide,
    (c5_phase_selection ⟨some "u", some "t"⟩).1 (by decide) (by decide)⟩

/-- Claim C6: a confirmation submission with mismatching passwords makes no
network call, shows exactly the message Passwords do not match., and
clears the pending flag; the backend is contacted only when the two
passwords are equal. -/
theorem c6_mismatch_fails_fast (s : ConfirmPhaseState)
    (o : ConfirmOutcome) :
    (s.password ≠ s.confirm →
      (submitConfirm s o).networkCall = none ∧
      (submitConfirm s o).state.confirmError = "Passwords do not match." ∧
      (submitConfirm s o).state.isConfirming = false) ∧
    ((submitConfirm s o).networkCall ≠ none → s.password = s.confirm) := by
  constructor
  · intro h
    simp [submitConfirm, h]
  · intro h
    by_cases hpc : s.password = s.confirm
    · exact hpc
    · exact absurd (by simp [submitConfirm, hpc]) h

/-- Claim C6 at the spec scenario inputs. -/
theorem c6_mismatch_witness :
    ("abc12345" : String) ≠ "abc999" ∧
    ((submitConfirm ⟨"u", "t", "abc12345", "abc999", "", "", false⟩
        .success).networkCall = none ∧
     (submitConfirm ⟨"u", "t", "abc12345", "abc999", "", "", false⟩
        .success).state.confirmError = "Passwords do not match." ∧
     (submitConfirm ⟨"u", "t", "abc12345", "abc999", "", "", false⟩
        .success).state.isConfirming = false) :=
  ⟨by decide, (c6_mismatch_fails_fast
    ⟨"u", "t", "abc12345", "abc999", "", "", false⟩ .success).1 (by decide)⟩

/-- Claim C7: the login payload carries the trimmed username and the
password as typed; the second-factor code is sent trimmed under the key
token exactly when its trimmed value is non-empty, and omitted entirely
otherwise. -/
theorem c7_login_payload (f : LoginForm) :
    (buildLoginPayload f).username = f.username.trim ∧
    (buildLoginPayload f).password = f.password ∧
    (buildLoginPayload f).token =
      (if f.token.trim = "" then none else some f.token.trim) := by
  by_cases h : f.token.trim = "" <;> simp [buildLoginPayload, h]

/-- Claim C8 is false as stated: a success payload whose message and uid
fields are included but empty is not taken up: the generic message is shown
instead of the included empty message, and the previously held uid
survives instead of being pre-populated from the payload. -/
theorem c8_counterexample :
    (submitRequest ⟨"e@x.com", "old", "", "", "", false⟩
        (.success ⟨some "", some "", none⟩)).state.requestStatus =
      "If an account exists for that email, a reset link will be sent." ∧
    (submitRequest ⟨"e@x.com", "old", "", "", "", false⟩
        (.success ⟨some "", some "", none⟩)).state.uid = "old" := by decide

/-- Claim C8 (amended): every reset-request submission posts the trimmed
email; on success the displayed status is the backend message when it is
present and non-empty, else the generic enumeration-safe message, and the
uid and token fields of the payload pre-populate the confirmation fields
when present and non-empty. -/
theorem c8_reset_request (s : RequestPhaseState) (d : ResetRequestData) :
    (∀ o : RequestOutcome, (submitRequest s o).payloadEmail =
      s.email.trim) ∧
    (submitRequest s (.success d)).state.requestStatus =
      (if jsTruthy d.message then d.message.getD ""
       else "If an account exists for that email, a reset link will be sent.") ∧
    (submitRequest s (.success d)).state.uid =
      (if jsTruthy d.uid then d.uid.getD "" else s.uid) ∧
    (submitRequest s (.success d)).state.token =
      (if jsTruthy d.token then d.token.getD "" else s.token) := by
  refine ⟨fun o => ?_, ?_, ?_, ?_⟩
  · cases o <;> simp [submitRequest]
  all_goals
    by_cases hm : jsTruthy d.message <;>
    by_cases hu : jsTruthy d.uid <;>
    by_cases ht : jsTruthy d.token <;>
      simp [submitRequest, jsOr, hm, hu, ht]

/-- Claim C9: a confirmation submission the backend accepts shows the
success status and schedules a navigation to the sign-in entry point after
1200 ms; navigation is scheduled on no other path. -/
theorem c9_confirm_nav (s : ConfirmPhaseState) :
    (s.password = s.confirm →
      (submitConfirm s .success).state.confirmStatus =
        "Password updated. You can now sign in." ∧
      (submitConfirm s .success).scheduledNav = some ("/", 1200)) ∧
    (∀ o, (submitConfirm s o).scheduledNav ≠ none →
      o = .success ∧ s.password = s.confirm) := by
  constructor
  · intro h
    simp [submitConfirm, h]
  · intro o h
    by_cases hpc : s.password = s.confirm
    · cases o with
      | success => exact ⟨rfl, hpc⟩
      | failure e => exact absurd (by simp [submitConfirm, hpc]) h
    · exact absurd (by simp [submitConfirm, hpc]) h

/-- Claim C9 at a concrete accepted confirmation. -/
theorem c9_confirm_nav_witness :
    (⟨"u", "t", "pw123456", "pw123456", "", "", false⟩ :
      ConfirmPhaseState).password =
      (⟨"u", "t", "pw123456", "pw123456", "", "", false⟩ :
        ConfirmPhaseState).confirm ∧
    ((submitConfirm ⟨"u", "t", "pw123456", "pw123456", "", "", false⟩
        .success).state.confirmStatus =
      "Password updated. You can now sign in." ∧
     (submitConfirm ⟨"u", "t", "pw123456", "pw123456", "", "", false⟩
        .success).scheduledNav = some ("/", 1200)) :=
  ⟨rfl, (c9_confirm_nav
    ⟨"u", "t", "pw123456", "pw123456", "", "", false⟩).1 rfl⟩

/-- Claim C10: on a successful reset-request response the uid and token
confirmation fields are updated independently and only from truthy payload
fields; an absent or empty field leaves the previously held value
unchanged. -/
theorem c10_fields_independent (s : RequestPhaseState)
    (d : ResetRequestData) :
    (submitRequest s (.success d)).state.uid =
      (if jsTruthy d.uid then d.uid.getD "" else s.uid) ∧
    (submitRequest s (.success d)).state.token =
      (if jsTruthy d.token then d.token.getD "" else s.token) := by
  by_cases hu : jsTruthy d.uid <;> by_cases ht : jsTruthy d.token <;>
    simp [submitRequest, hu, ht]

end Pretium
